import Mathlib

/-!
Verification of the kinematic integrator of the `fire-in-they-sky`
orbital simulator.  The physics core is the pure routine
`recalculatePositions` in `src/App.tsx`, which advances a list of bodies
by one signed time step under Newtonian gravity from a fixed reference
body (the earth) plus an optional constant thrust force.  We embed the
routine over the exact real numbers: the TypeScript source computes with
IEEE doubles, and every arithmetic operation it performs is translated
one-for-one (`Math.sqrt` becomes `Real.sqrt`, `**` becomes `^`, and the
JavaScript divisions become real division, with the caveat — noted where
it matters — that real division by zero is `0` in Lean while JavaScript
yields `Infinity`/`NaN`; on inputs where no division by zero occurs the
two semantics agree up to rounding).
-/

namespace Orbit

/-- A planar vector, the shape `{ x, y }` used throughout the source. -/
structure Vec2 where
  x : ℝ
  y : ℝ

/-- The `Body` interface of `src/App.tsx`: a simulated point mass. -/
structure Body where
  name : String
  x : ℝ
  y : ℝ
  width : ℝ
  height : ℝ
  mass : ℝ
  engineForceVector : Vec2
  accelerationVector : Vec2
  velocityVector : Vec2

noncomputable def RADIUS_OF_EARTH : ℝ := 6371 * 1000

noncomputable def MASS_OF_EARTH : ℝ := 5.972e24

noncomputable def G : ℝ := 6.674e-11

/-- The fixed gravitating body (`FrameOfReference` in the source). -/
structure Frame where
  x : ℝ
  y : ℝ
  mass : ℝ
  width : ℝ
  height : ℝ

noncomputable def FrameOfReference : Frame :=
  { x := 0
    y := 0
    mass := MASS_OF_EARTH
    width := RADIUS_OF_EARTH * 2
    height := RADIUS_OF_EARTH * 2 }

/-- The per-body update performed inside the `bodies.map` of
`recalculatePositions` (src/App.tsx lines 63-115), translated
expression by expression from the source. -/
noncomputable def stepBody (body : Body) (deltaTime : ℝ) (isEngineOn : Bool) : Body :=
  let distanceToEarth : Vec2 :=
    ⟨FrameOfReference.x - body.x, FrameOfReference.y - body.y⟩
  let absoluteDistanceToEarth :=
    Real.sqrt (distanceToEarth.x ^ 2 + distanceToEarth.y ^ 2)
  let absoluteGravitationalForce :=
    G * MASS_OF_EARTH * body.mass / absoluteDistanceToEarth ^ 2
  let cosineTheta := distanceToEarth.x / absoluteDistanceToEarth
  let sineTheta := distanceToEarth.y / absoluteDistanceToEarth
  let gravitationalForce : Vec2 :=
    ⟨absoluteGravitationalForce * cosineTheta,
     absoluteGravitationalForce * sineTheta⟩
  let newAcceleration : Vec2 :=
    ⟨(if isEngineOn then body.engineForceVector.x + gravitationalForce.x
        else 0 + gravitationalForce.x) / body.mass,
     (if isEngineOn then body.engineForceVector.y + gravitationalForce.y
        else 0 + gravitationalForce.y) / body.mass⟩
  let newVelocity : Vec2 :=
    ⟨(newAcceleration.x + body.accelerationVector.x) * deltaTime / 2 +
       body.velocityVector.x,
     (newAcceleration.y + body.accelerationVector.y) * deltaTime / 2 +
       body.velocityVector.y⟩
  let newPosition : Vec2 :=
    ⟨(newVelocity.x + body.velocityVector.x) * deltaTime / 2 + body.x,
     (newVelocity.y + body.velocityVector.y) * deltaTime / 2 + body.y⟩
  { body with
    accelerationVector := newAcceleration
    velocityVector := newVelocity
    x := newPosition.x
    y := newPosition.y }

/-- `recalculatePositions` (src/App.tsx lines 58-116): map the per-body
update over the whole collection. -/
noncomputable def recalculatePositions (bodies : List Body) (deltaTime : ℝ)
    (isEngineOn : Bool) : List Body :=
  bodies.map (fun body => stepBody body deltaTime isEngineOn)

/-- Euclidean distance from a body to the reference frame's position,
the quantity `absoluteDistanceToEarth` of the source. -/
noncomputable def distanceToFrame (body : Body) : ℝ :=
  Real.sqrt ((FrameOfReference.x - body.x) ^ 2 + (FrameOfReference.y - body.y) ^ 2)

/-- The per-body update as the specification words it (spec section 4.2,
algorithm steps 1-8): gravitational force of magnitude
`G * M_frame * mass / r^2` directed along the unit vector `d / r`, net
force gravity plus thrust when the engine is on, acceleration
`net / mass`, trapezoidal velocity and position updates.  Written to be
compared with `stepBody`, the translation of the source. -/
noncomputable def stepBodySpec (body : Body) (dt : ℝ) (isEngineOn : Bool) : Body :=
  let d : Vec2 := ⟨FrameOfReference.x - body.x, FrameOfReference.y - body.y⟩
  let r := Real.sqrt (d.x ^ 2 + d.y ^ 2)
  let gravMagnitude := G * FrameOfReference.mass * body.mass / r ^ 2
  let Fg : Vec2 := ⟨gravMagnitude * (d.x / r), gravMagnitude * (d.y / r)⟩
  let net : Vec2 :=
    if isEngineOn then
      ⟨Fg.x + body.engineForceVector.x, Fg.y + body.engineForceVector.y⟩
    else Fg
  let a2 : Vec2 := ⟨net.x / body.mass, net.y / body.mass⟩
  let v2 : Vec2 :=
    ⟨body.velocityVector.x + (a2.x + body.accelerationVector.x) * dt / 2,
     body.velocityVector.y + (a2.y + body.accelerationVector.y) * dt / 2⟩
  let p2 : Vec2 :=
    ⟨body.x + (v2.x + body.velocityVector.x) * dt / 2,
     body.y + (v2.y + body.velocityVector.y) * dt / 2⟩
  { body with
    accelerationVector := a2
    velocityVector := v2
    x := p2.x
    y := p2.y }

/-- Claim C1: for every body with positive mass at positive distance from
the frame, every non-zero time step and every engine flag, the per-body
update of `recalculatePositions` computes exactly the acceleration,
trapezoidal velocity and trapezoidal position stated by the spec:
the source's update coincides with `stepBodySpec`. -/
theorem stepBody_eq_spec (body : Body) (dt : ℝ) (isEngineOn : Bool)
    (hm : 0 < body.mass) (hr : 0 < distanceToFrame body) (hdt : dt ≠ 0) :
    stepBody body dt isEngineOn = stepBodySpec body dt isEngineOn := by
  simp only [stepBody, stepBodySpec, FrameOfReference]
  cases isEngineOn <;> simp only [Bool.false_eq_true, if_true, if_false, reduceIte] <;>
    refine Body.mk.injEq _ _ _ _ _ _ _ _ _ _ _ _ _ _ _ _ _ _ |>.mpr ?_ <;>
    refine ⟨rfl, by ring, by ring, rfl, rfl, rfl, rfl, ?_, ?_⟩ <;>
    simp only [Vec2.mk.injEq] <;> constructor <;> ring

/-- The initial body of the simulation ("Rocket", src/App.tsx lines
119-140): 10 km above the reference radius, engine thrusting upward. -/
noncomputable def rocket : Body :=
  { name := "Rocket"
    x := 0
    y := RADIUS_OF_EARTH + 10000
    width := 20000
    height := 20000
    mass := 7000
    engineForceVector := ⟨0, 100000⟩
    accelerationVector := ⟨0, 0⟩
    velocityVector := ⟨0, 0⟩ }

theorem rocket_mass_pos : 0 < rocket.mass := by
  simp only [rocket]; norm_num

theorem rocket_distance_pos : 0 < distanceToFrame rocket := by
  simp only [distanceToFrame, rocket, FrameOfReference, RADIUS_OF_EARTH]
  rw [Real.sqrt_pos]
  norm_num

/-- Witness for C1 at the initial "Rocket" state of the source. -/
theorem stepBody_eq_spec_witness :
    0 < rocket.mass ∧ 0 < distanceToFrame rocket ∧ (0.1 : ℝ) ≠ 0 ∧
    stepBody rocket 0.1 true = stepBodySpec rocket 0.1 true :=
  ⟨rocket_mass_pos, rocket_distance_pos, by norm_num,
   stepBody_eq_spec rocket 0.1 true rocket_mass_pos rocket_distance_pos
     (by norm_num)⟩

theorem recalculatePositions_length (bodies : List Body) (dt : ℝ) (e : Bool) :
    (recalculatePositions bodies dt e).length = bodies.length := by
  simp [recalculatePositions]

/-- Claim C4: the step operation returns a list of the same length, in
the same order, and each output body keeps the input body's `name`,
`mass`, extent (`width`/`height`) and `engineForceVector`; only
position, velocity and acceleration are replaced. -/
theorem recalc_preserves_static_fields (bodies : List Body) (dt : ℝ) (e : Bool) :
    (recalculatePositions bodies dt e).length = bodies.length ∧
    ∀ i (h1 : i < bodies.length) (h2 : i < (recalculatePositions bodies dt e).length),
      ((recalculatePositions bodies dt e).get ⟨i, h2⟩).name =
          (bodies.get ⟨i, h1⟩).name ∧
      ((recalculatePositions bodies dt e).get ⟨i, h2⟩).mass =
          (bodies.get ⟨i, h1⟩).mass ∧
      ((recalculatePositions bodies dt e).get ⟨i, h2⟩).width =
          (bodies.get ⟨i, h1⟩).width ∧
      ((recalculatePositions bodies dt e).get ⟨i, h2⟩).height =
          (bodies.get ⟨i, h1⟩).height ∧
      ((recalculatePositions bodies dt e).get ⟨i, h2⟩).engineForceVector =
          (bodies.get ⟨i, h1⟩).engineForceVector := by
  refine ⟨recalculatePositions_length bodies dt e, fun i h1 h2 => ?_⟩
  have hget : (recalculatePositions bodies dt e).get ⟨i, h2⟩ =
      stepBody (bodies.get ⟨i, h1⟩) dt e := by
    simp [recalculatePositions]
  rw [hget]
  exact ⟨rfl, rfl, rfl, rfl, rfl⟩

/-- Witness for C4 at the singleton list holding the source's initial
body and the source's forward time step. -/
theorem recalc_preserves_static_fields_witness :
    ((recalculatePositions [rocket] 0.1 true).get ⟨0, by
        simp [recalculatePositions]⟩).mass = rocket.mass :=
  ((recalc_preserves_static_fields [rocket] 0.1 true).2 0 (by simp)
      (by simp [recalculatePositions])).2.1

/-- Claim C9: bodies are stepped independently.  The i-th output of a
step over a list equals the single output of stepping the singleton list
holding the i-th input, and the empty list steps to the empty list. -/
theorem recalc_stepwise_independent (bodies : List Body) (dt : ℝ) (e : Bool) :
    recalculatePositions [] dt e = [] ∧
    ∀ i (h1 : i < bodies.length) (h2 : i < (recalculatePositions bodies dt e).length),
      recalculatePositions [bodies.get ⟨i, h1⟩] dt e =
        [(recalculatePositions bodies dt e).get ⟨i, h2⟩] := by
  refine ⟨by simp [recalculatePositions], fun i h1 h2 => ?_⟩
  simp [recalculatePositions]

/-- Witness for C9 at a two-element list: the second output of the
two-body step equals the output of stepping that body alone. -/
theorem recalc_stepwise_independent_witness :
    recalculatePositions [rocket] 0.1 false =
      [(recalculatePositions [rocket, rocket] 0.1 false).get ⟨1, by
          simp [recalculatePositions]⟩] :=
  (recalc_stepwise_independent [rocket, rocket] 0.1 false).2 1 (by simp)
    (by simp [recalculatePositions])

/-- Counterexample to claim C5 as stated: with the engine off, changing a
body's `engineForceVector` does change the step output, because the
output body carries the changed `engineForceVector` field over
unchanged.  Here the source's initial body and the same body with thrust
`(1, 2)` step to different outputs. -/
theorem engineForce_changes_output_engineOff :
    recalculatePositions [rocket] 0.1 false ≠
      recalculatePositions [{ rocket with engineForceVector := ⟨1, 2⟩ }] 0.1 false := by
  intro h
  have h1 : stepBody rocket 0.1 false =
      stepBody { rocket with engineForceVector := ⟨1, 2⟩ } 0.1 false := by
    simpa [recalculatePositions] using h
  have h2 := congrArg Body.engineForceVector h1
  simp only [stepBody] at h2
  norm_num [rocket, Vec2.mk.injEq] at h2

/-- Claim C5 amended: with the engine off the output is independent of
`engineForceVector` except for that carried-over field itself (the
output for a changed thrust is the unchanged output with only its
`engineForceVector` field replaced); and with the engine on and zero
thrust the output equals the engine-off output. -/
theorem engine_toggle_effect (b : Body) (F : Vec2) (dt : ℝ) :
    stepBody { b with engineForceVector := F } dt false =
      { stepBody b dt false with engineForceVector := F } ∧
    (b.engineForceVector = ⟨0, 0⟩ →
      stepBody b dt true = stepBody b dt false) := by
  constructor
  · simp [stepBody]
  · intro hF
    simp [stepBody, hF]

/-- Witness for C5 at the source's initial body with its thrust set to
zero: stepping with the engine on equals stepping with it off. -/
theorem engine_toggle_effect_witness :
    stepBody { rocket with engineForceVector := ⟨0, 0⟩ } 0.1 true =
      stepBody { rocket with engineForceVector := ⟨0, 0⟩ } 0.1 false :=
  (engine_toggle_effect { rocket with engineForceVector := ⟨0, 0⟩ } ⟨0, 0⟩ 0.1).2 rfl

/-- Claim C6: with the engine off, scaling a body's mass by a positive
constant `k` leaves the computed acceleration, velocity and position of
the step output unchanged — the mass cancels in `a = F_g / m`. -/
theorem mass_scaling_invariant (b : Body) (k dt : ℝ) (hk : 0 < k)
    (hm : 0 < b.mass) (hr : 0 < distanceToFrame b) :
    (stepBody { b with mass := k * b.mass } dt false).accelerationVector =
        (stepBody b dt false).accelerationVector ∧
    (stepBody { b with mass := k * b.mass } dt false).velocityVector =
        (stepBody b dt false).velocityVector ∧
    (stepBody { b with mass := k * b.mass } dt false).x =
        (stepBody b dt false).x ∧
    (stepBody { b with mass := k * b.mass } dt false).y =
        (stepBody b dt false).y := by
  have hk0 : k ≠ 0 := ne_of_gt hk
  have hm0 : b.mass ≠ 0 := ne_of_gt hm
  have hr0 : Real.sqrt ((FrameOfReference.x - b.x) ^ 2 + (FrameOfReference.y - b.y) ^ 2) ≠ 0 := by
    simpa [distanceToFrame] using ne_of_gt hr
  simp only [stepBody, Vec2.mk.injEq, Bool.false_eq_true, reduceIte, zero_add]
  set R := Real.sqrt ((FrameOfReference.x - b.x) ^ 2 + (FrameOfReference.y - b.y) ^ 2) with hR
  have key : ∀ c : ℝ,
      G * MASS_OF_EARTH * (k * b.mass) / R ^ 2 * (c / R) / (k * b.mass) =
        G * MASS_OF_EARTH * b.mass / R ^ 2 * (c / R) / b.mass := by
    intro c
    field_simp
    ring
  refine ⟨⟨key _, key _⟩, ⟨?_, ?_⟩, ?_, ?_⟩ <;> rw [key]

/-- Witness for C6 at the source's initial body with scale factor 3. -/
theorem mass_scaling_invariant_witness :
    (stepBody { rocket with mass := 3 * rocket.mass } 0.1 false).accelerationVector =
      (stepBody rocket 0.1 false).accelerationVector :=
  (mass_scaling_invariant rocket 3 0.1 (by norm_num) rocket_mass_pos
    rocket_distance_pos).1

/-- Guarded variant of the per-body update: at each division the source
performs (by `absoluteDistanceToEarth ^ 2` in the gravitational force,
by `absoluteDistanceToEarth` in the direction cosines, and by
`body.mass` in the acceleration) it checks that the divisor is non-zero,
failing with `none` otherwise; on the happy path it returns exactly the
source's result. -/
noncomputable def stepBodyChecked (body : Body) (deltaTime : ℝ) (isEngineOn : Bool) :
    Option Body :=
  if distanceToFrame body ^ 2 = 0 ∨ distanceToFrame body = 0 ∨ body.mass = 0 then
    none
  else some (stepBody body deltaTime isEngineOn)

/-- `recalculatePositions` with the per-division guards of
`stepBodyChecked`: fails with `none` as soon as any body hits a zero
divisor. -/
noncomputable def recalculatePositionsChecked :
    List Body → ℝ → Bool → Option (List Body)
  | [], _, _ => some []
  | b :: rest, dt, e =>
    match stepBodyChecked b dt e, recalculatePositionsChecked rest dt e with
    | some b2, some rest2 => some (b2 :: rest2)
    | _, _ => none

/-- Claim C10: under the preconditions `mass > 0` and distance `r > 0`
for every input body, every division performed by the step has a
non-zero divisor: the guarded step never takes its error branch and
returns exactly the unguarded result. -/
theorem checked_step_never_fails (bodies : List Body) (dt : ℝ) (e : Bool)
    (h : ∀ b ∈ bodies, 0 < b.mass ∧ 0 < distanceToFrame b) :
    recalculatePositionsChecked bodies dt e =
      some (recalculatePositions bodies dt e) := by
  induction bodies with
  | nil => simp [recalculatePositionsChecked, recalculatePositions]
  | cons b rest ih =>
    have hb := h b (List.mem_cons_self b rest)
    have hrest := ih fun x hx => h x (List.mem_cons_of_mem b hx)
    have hstep : stepBodyChecked b dt e = some (stepBody b dt e) := by
      rw [stepBodyChecked, if_neg]
      push_neg
      exact ⟨pow_ne_zero 2 (ne_of_gt hb.2), ne_of_gt hb.2, ne_of_gt hb.1⟩
    simp [recalculatePositionsChecked, recalculatePositions, hstep, hrest]

/-- Witness for C10 at the singleton list holding the source's initial
body. -/
theorem checked_step_never_fails_witness :
    recalculatePositionsChecked [rocket] 0.1 true =
      some (recalculatePositions [rocket] 0.1 true) :=
  checked_step_never_fails [rocket] 0.1 true
    (fun b hb => by
      rw [List.mem_singleton] at hb
      rw [hb]
      exact ⟨rocket_mass_pos, rocket_distance_pos⟩)

/-- A body located exactly at the reference frame's position (distance
zero): the failing input of C2. -/
noncomputable def coincidentBody : Body :=
  { rocket with x := FrameOfReference.x, y := FrameOfReference.y }

/-- Claim C2 (code bug): the source has no zero-separation guard — no
`throw`, no error type, no check of any kind exists in
`recalculatePositions`.  A body exactly at the frame's position is
stepped without any error and the call returns a one-element result; in
the JavaScript original the divisions by the zero distance silently
produce `Infinity`/`NaN` components instead of the DomainError the spec
requires. -/
theorem coincident_body_steps_without_error :
    (recalculatePositions [coincidentBody] 0.1 true).length = 1 := by
  simp [recalculatePositions]

/-- A body with `mass = 0`: the failing input of C3. -/
noncomputable def masslessBody : Body :=
  { rocket with mass := 0 }

/-- Claim C3 (code bug): the source never validates `mass`.  A body with
zero mass is stepped without any error and the call returns a
one-element result; in the JavaScript original the division of the net
force by the zero mass silently produces `Infinity`/`NaN` components
instead of the DomainError the spec requires. -/
theorem zero_mass_body_steps_without_error :
    (recalculatePositions [masslessBody] 0.1 true).length = 1 := by
  simp [recalculatePositions]

/-- A body used to exhibit irreversibility: at rest 100 m from the frame
with unit mass and no thrust. -/
noncomputable def probe : Body :=
  ⟨"probe", 0, 100, 0, 0, 1, ⟨0, 0⟩, ⟨0, 0⟩, ⟨0, 0⟩⟩

/-- Claim C7: the step is not exactly time-reversible — there is a valid
body state (positive mass, positive distance from the frame) and a
non-zero `dt` for which stepping by `dt` and then by `-dt` does not
restore the original state.  Here the probe starts with zero
acceleration, but after the round trip its stored acceleration is the
(non-zero) gravitational acceleration recomputed at the intermediate
position. -/
theorem step_not_reversible :
    ∃ (b : Body) (dt : ℝ) (e : Bool),
      0 < b.mass ∧ 0 < distanceToFrame b ∧ dt ≠ 0 ∧
      recalculatePositions (recalculatePositions [b] dt e) (-dt) e ≠ [b] := by
  refine ⟨probe, 2, false, by norm_num [probe], ?_, by norm_num, ?_⟩
  · simp only [distanceToFrame, probe, FrameOfReference]
    rw [Real.sqrt_pos]
    norm_num
  intro h
  have h1 : stepBody (stepBody probe 2 false) (-2) false = probe := by
    simpa [recalculatePositions] using h
  have e1 : stepBody probe 2 false =
      ⟨"probe", 0, -39857127900, 0, 0, 1, ⟨0, 0⟩, ⟨0, -39857128000⟩,
        ⟨0, -39857128000⟩⟩ := by
    have hs1 : Real.sqrt (((0:ℝ) - 0) ^ 2 + ((0:ℝ) - 100) ^ 2) = 100 := by
      rw [show ((0:ℝ) - 0) ^ 2 + ((0:ℝ) - 100) ^ 2 = 100 ^ 2 by norm_num]
      exact Real.sqrt_sq (by norm_num)
    simp only [stepBody, probe, FrameOfReference, G, MASS_OF_EARTH, hs1,
      Bool.false_eq_true, reduceIte]
    norm_num [Body.mk.injEq, Vec2.mk.injEq]
  rw [e1] at h1
  have h2 := congrArg (fun bb => bb.accelerationVector.y) h1
  have hs2 : Real.sqrt (((0:ℝ) - 0) ^ 2 + ((0:ℝ) - -39857127900) ^ 2) =
      39857127900 := by
    rw [show ((0:ℝ) - 0) ^ 2 + ((0:ℝ) - -39857127900) ^ 2 = 39857127900 ^ 2 by
      norm_num]
    exact Real.sqrt_sq (by norm_num)
  simp only [stepBody, probe, FrameOfReference, G, MASS_OF_EARTH, hs2,
    Bool.false_eq_true, reduceIte] at h2
  norm_num at h2

theorem rocket_eq_literal :
    rocket = ⟨"Rocket", 0, 6381000, 20000, 20000, 7000, ⟨0, 100000⟩,
      ⟨0, 0⟩, ⟨0, 0⟩⟩ := by
  simp only [rocket, RADIUS_OF_EARTH]
  norm_num

/-- Exact output components of the spec's concrete scenario (the
source's initial body, engine on, `dt = 0.1`), as rationals. -/
theorem rocket_step_exact :
    (stepBody rocket 0.1 true).accelerationVector.y = 1281717140 / 285020127 ∧
    (stepBody rocket 0.1 true).velocityVector.y = 64085857 / 285020127 ∧
    (stepBody rocket 0.1 true).y = 6381000 + 64085857 / 5700402540 := by
  rw [rocket_eq_literal]
  have hs : Real.sqrt (((0:ℝ) - 0) ^ 2 + ((0:ℝ) - 6381000) ^ 2) = 6381000 := by
    rw [show ((0:ℝ) - 0) ^ 2 + ((0:ℝ) - 6381000) ^ 2 = 6381000 ^ 2 by norm_num]
    exact Real.sqrt_sq (by norm_num)
  simp only [stepBody, FrameOfReference, G, MASS_OF_EARTH, hs, reduceIte]
  norm_num

/-- Counterexample to claim C8 as stated: in the concrete scenario the
output acceleration (`≈ 4.4969 m/s²`) and velocity (`≈ 0.22485 m/s`)
are NOT within `1e-3` relative tolerance of the claimed `4.489` and
`0.2244` — whether the tolerance is read relative to the claimed or to
the computed value.  (The spec's gravitational magnitude `9.7965` is
mistaken; `G*M/r^2 = 9.7888` at `r = 6381000`.) -/
theorem scenario_tolerances_violated :
    |(stepBody rocket 0.1 true).accelerationVector.y - 4.489| > 0.001 * 4.489 ∧
    |(stepBody rocket 0.1 true).accelerationVector.y - 4.489| >
      0.001 * |(stepBody rocket 0.1 true).accelerationVector.y| ∧
    |(stepBody rocket 0.1 true).velocityVector.y - 0.2244| > 0.001 * 0.2244 ∧
    |(stepBody rocket 0.1 true).velocityVector.y - 0.2244| >
      0.001 * |(stepBody rocket 0.1 true).velocityVector.y| := by
  obtain ⟨ha, hv, -⟩ := rocket_step_exact
  refine ⟨?_, ?_, ?_, ?_⟩
  · rw [ha, abs_of_pos (by norm_num)]
    norm_num
  · rw [ha, abs_of_pos (by norm_num), abs_of_pos (by norm_num)]
    norm_num
  · rw [hv, abs_of_pos (by norm_num)]
    norm_num
  · rw [hv, abs_of_pos (by norm_num), abs_of_pos (by norm_num)]
    norm_num

/-- Claim C8 amended: in the concrete scenario the output y-components
are, within `1e-3` relative tolerance, acceleration
`≈ 100000/7000 - 9.7888 ≈ 4.4969 m/s²`, velocity `≈ 0.22485 m/s`, and
position `≈ 6381000.011 m`. -/
theorem scenario_corrected_values :
    |(stepBody rocket 0.1 true).accelerationVector.y - 4.4969| ≤ 0.001 * 4.4969 ∧
    |(stepBody rocket 0.1 true).velocityVector.y - 0.22485| ≤ 0.001 * 0.22485 ∧
    |(stepBody rocket 0.1 true).y - 6381000.011| ≤ 0.001 * 6381000.011 := by
  obtain ⟨ha, hv, hp⟩ := rocket_step_exact
  rw [ha, hv, hp]
  refine ⟨?_, ?_, ?_⟩ <;> rw [abs_le] <;> constructor <;> norm_num

end Orbit
